import Mathlib

/-!
Verification of the YardLayout scale-drawing geometry core.

This file is a shallow embedding of the Python sources
`layout_data.py`, `layout_canvas.py` and `print_export.py`.
Python floats are modelled as exact rationals (`ℚ`); decimal literals of
the source (1.1, 0.707, 0.08, ...) are taken at their decimal value.
Optional fields (`None`) are modelled with `Option`; a raised
`ValueError` is modelled with `Except`.  Functions are named after the
source functions they embed.
-/

namespace YardLayout

/-- Python `int(q)` (truncation toward zero) on a rational. -/
def qtrunc (q : ℚ) : ℤ := q.num / (q.den : ℤ)

/-- An axis-aligned box `(x0, y0, x1, y1)` in device coordinates. -/
structure Box where
  x0 : ℚ
  y0 : ℚ
  x1 : ℚ
  y1 : ℚ
deriving DecidableEq, Repr

/-- Embeds `layout_canvas._inflate`: grow a box by `pad` on every side. -/
def inflate (b : Box) (pad : ℚ) : Box :=
  ⟨b.x0 - pad, b.y0 - pad, b.x1 + pad, b.y1 + pad⟩

/-- Embeds `layout_canvas._bbox_intersects`:
`not (a[2] < b[0] or a[0] > b[2] or a[3] < b[1] or a[1] > b[3])`. -/
def bboxIntersects (a b : Box) : Bool :=
  if a.x1 < b.x0 ∨ a.x0 > b.x1 ∨ a.y1 < b.y0 ∨ a.y0 > b.y1 then false
  else true

/-- A box contains a point (used to axiomatize the Tk text measurer:
the bounding box of a center-anchored text item contains its anchor). -/
def boxContains (b : Box) (c : ℚ × ℚ) : Bool :=
  if b.x0 ≤ c.1 ∧ c.1 ≤ b.x1 ∧ b.y0 ≤ c.2 ∧ c.2 ≤ b.y1 then true
  else false

/-! ## Data model (`layout_data.py`) -/

/-- Embeds `layout_data.RectangleObject` (house or shed).  The runtime checks of
the sources treat every field but `name` as possibly `None`, so all four
numeric fields are `Option ℚ`. -/
structure RectangleObject where
  name : String
  width : Option ℚ
  height : Option ℚ
  x : Option ℚ
  y : Option ℚ
deriving DecidableEq, Repr

/-- Embeds `layout_data.PointObject` (well or septic tank). -/
structure PointObject where
  name : String
  x : Option ℚ
  y : Option ℚ
deriving DecidableEq, Repr

/-- Embeds `layout_data.LayoutData`: property boundary distances plus the four
optional objects. -/
structure LayoutData where
  front : ℚ
  back : ℚ
  left : ℚ
  right : ℚ
  house : Option RectangleObject
  shed : Option RectangleObject
  well : Option PointObject
  septic : Option PointObject
deriving DecidableEq, Repr

/-- The `"boundary"` sub-dictionary of the serialized JSON. -/
structure Boundary where
  front : ℚ
  back : ℚ
  left : ℚ
  right : ℚ
deriving DecidableEq, Repr

/-- The dictionary produced by `LayoutData.to_dict`:
`{"boundary": {...}, "objects": {house?, shed?, well?, septic?}}`.
An object's flat field set (`dataclasses.asdict`) coincides with the
object itself, so entries reuse the object types; a missing key is
`none`. -/
structure LayoutDict where
  boundary : Boundary
  house : Option RectangleObject
  shed : Option RectangleObject
  well : Option PointObject
  septic : Option PointObject
deriving DecidableEq, Repr

/-- Embeds `include_rect` of `LayoutData.to_dict`: present, placed, and with
positive width/height. -/
def includeRect : Option RectangleObject → Bool
  | none => false
  | some r =>
    match r.x, r.y, r.width, r.height with
    | some _, some _, some w, some h => decide (w > 0) && decide (h > 0)
    | _, _, _, _ => false

/-- Embeds `include_point` of `LayoutData.to_dict`: present with both
coordinates set. -/
def includePoint : Option PointObject → Bool
  | none => false
  | some p => p.x.isSome && p.y.isSome

/-- Embeds `LayoutData.to_dict`: serialize, omitting absent/incomplete objects. -/
def LayoutData.to_dict (d : LayoutData) : LayoutDict where
  boundary := ⟨d.front, d.back, d.left, d.right⟩
  house := if includeRect d.house then d.house else none
  shed := if includeRect d.shed then d.shed else none
  well := if includePoint d.well then d.well else none
  septic := if includePoint d.septic then d.septic else none

/-- Embeds `LayoutData.from_dict`: objects may be omitted; an omitted key
reconstructs as `None`.  `RectangleObject(**o["house"])` rebuilds the
object from its own flat field set, i.e. the identity on present
entries. -/
def LayoutData.from_dict (dd : LayoutDict) : LayoutData where
  front := dd.boundary.front
  back := dd.boundary.back
  left := dd.boundary.left
  right := dd.boundary.right
  house := dd.house
  shed := dd.shed
  well := dd.well
  septic := dd.septic

/-! ## Name resolution and position update (`layout_data.py`) -/

/-- The four object slots of a layout. -/
inductive Slot where
  | house
  | shed
  | well
  | septic
deriving DecidableEq, Repr

/-- Boolean prefix test on character lists. -/
def isPrefOf : List Char → List Char → Bool
  | [], _ => true
  | _ :: _, [] => false
  | a :: as, b :: bs => a = b && isPrefOf as bs

/-- Python's substring test `needle in haystack` on character lists. -/
def isSubOf (needle : List Char) : List Char → Bool
  | [] => needle.isEmpty
  | b :: bs => isPrefOf needle (b :: bs) || isSubOf needle bs

/-- Python whitespace stripped by `str.strip()`. -/
def isSpaceChar (c : Char) : Bool :=
  c = ' ' || c = '\t' || c = '\n' || c = '\r' || c = '\x0b' || c = '\x0c'

/-- Python `str.strip()` on a character list. -/
def trimChars (l : List Char) : List Char :=
  ((l.dropWhile isSpaceChar).reverse.dropWhile isSpaceChar).reverse

/-- Python `str.lower()` on a character list. -/
def lowerChars (l : List Char) : List Char := l.map Char.toLower

/-- Embeds `layout_data.role_for` (the local fallback, which is the one in
effect: `ui_palette.py` defines no `role_for`, so the
`from ui_palette import role_for` raises and is caught): empty names
resolve to no role, otherwise substring checks on the stripped,
lower-cased name, in the order house, shed, well, septic. -/
def role_for (name : String) : Option Slot :=
  if name = "" then none
  else
    let s := lowerChars (trimChars name.toList)
    if isSubOf "house".toList s then some Slot.house
    else if isSubOf "shed".toList s then some Slot.shed
    else if isSubOf "well".toList s then some Slot.well
    else if isSubOf "septic".toList s then some Slot.septic
    else none

/-- Whether the object at a slot is present (`getattr` is not `None`). -/
def slotPresent (d : LayoutData) : Slot → Bool
  | Slot.house => d.house.isSome
  | Slot.shed => d.shed.isSome
  | Slot.well => d.well.isSome
  | Slot.septic => d.septic.isSome

/-- Embeds `LayoutData.resolve_obj`, returning the slot of the resolved object:
if the name has a canonical role, return that slot's object (possibly
`None`) with no fallback; otherwise scan `(house, shed, well, septic)`
for an exact display-name match. -/
def resolve_obj (d : LayoutData) (name_or_role : String) : Option Slot :=
  match role_for name_or_role with
  | some r => if slotPresent d r then some r else none
  | none =>
    if d.house.any (fun o => o.name = name_or_role) then some Slot.house
    else if d.shed.any (fun o => o.name = name_or_role) then some Slot.shed
    else if d.well.any (fun o => o.name = name_or_role) then some Slot.well
    else if d.septic.any (fun o => o.name = name_or_role) then some Slot.septic
    else none

/-- Functional effect of `obj.x = x; obj.y = y` on the object held in a
slot. -/
def setPos (d : LayoutData) (s : Slot) (x y : ℚ) : LayoutData :=
  match s with
  | Slot.house =>
    { d with house := d.house.map fun o => { o with x := some x, y := some y } }
  | Slot.shed =>
    { d with shed := d.shed.map fun o => { o with x := some x, y := some y } }
  | Slot.well =>
    { d with well := d.well.map fun o => { o with x := some x, y := some y } }
  | Slot.septic =>
    { d with septic := d.septic.map fun o => { o with x := some x, y := some y } }

/-- Embeds `LayoutData.update_object_position`: resolve by display name or role
alias; raise `ValueError` when resolution fails, else mutate the
resolved object's `x`/`y` in place. -/
def update_object_position (d : LayoutData) (name : String) (x y : ℚ) :
    Except String LayoutData :=
  match resolve_obj d name with
  | none => Except.error ("Unknown object name: " ++ name)
  | some s => Except.ok (setPos d s x y)

/-! ## Shed rotation (`layout_canvas.rotate_shed`) -/

/-- The feet-space fields of a fully placed shed. -/
structure PlacedShed where
  x : ℚ
  y : ℚ
  width : ℚ
  height : ℚ
deriving DecidableEq, Repr

/-- Embeds `layout_canvas.rotate_shed` on a placed shed (the method returns
early when `x` or `y` is `None`): flip `y` to top-based feet, compute
the center, swap width/height, recompute the top-left corner from the
unchanged center, and flip back. -/
def rotate_shed (left : ℚ) (s : PlacedShed) : PlacedShed :=
  let real_y := left - s.y - s.height
  let center_x := s.x + s.width / 2
  let center_y := real_y + s.height / 2
  let w := s.height
  let h := s.width
  let x := center_x - w / 2
  let real_y2 := center_y - h / 2
  let y := left - real_y2 - h
  ⟨x, y, w, h⟩

/-! ## Canvas scale and zoom (`layout_canvas.py`) -/

/-- Embeds `ZOOM` of `layout_canvas.py`. -/
def ZOOM : ℚ := 12 / 10

/-- Embeds `MARGIN_PX` of `layout_canvas.py`. -/
def MARGIN_PX : ℚ := 20

/-- The scale computed by `LayoutCanvas.__init__`:
`min(850 / front, 650 / left) * ZOOM` feet-to-pixel ratio. -/
def feet_to_pixel_ratio_init (front left : ℚ) : ℚ :=
  min (850 / front) (650 / left) * ZOOM

/-- The mutable state of a `LayoutCanvas` that zooming touches. -/
structure CanvasState where
  feet_to_pixel_ratio : ℚ
  px_per_ft : ℚ
  canvas_width : ℤ
  canvas_height : ℤ
  layout : LayoutData
deriving DecidableEq, Repr

/-- Embeds `LayoutCanvas.update_canvas_dimensions`: recompute the widget size
from the current scale (`int(...)` truncates). -/
def update_canvas_dimensions (st : CanvasState) : CanvasState :=
  { st with
    canvas_width := qtrunc (st.layout.front * st.feet_to_pixel_ratio)
    canvas_height := qtrunc (st.layout.left * st.feet_to_pixel_ratio) }

/-- Embeds `LayoutCanvas.zoom_in`: scale `*= 1.1`, resync `px_per_ft`,
recompute dimensions, redraw (drawing reads but never writes the
layout). -/
def zoom_in (st : CanvasState) : CanvasState :=
  let r := st.feet_to_pixel_ratio * (11 / 10)
  update_canvas_dimensions { st with feet_to_pixel_ratio := r, px_per_ft := r }

/-- Embeds `LayoutCanvas.zoom_out`: scale `/= 1.1`. -/
def zoom_out (st : CanvasState) : CanvasState :=
  let r := st.feet_to_pixel_ratio / (11 / 10)
  update_canvas_dimensions { st with feet_to_pixel_ratio := r, px_per_ft := r }

/-- The scale computed by `print_export.export_to_pdf`:
page is landscape letter (792 × 612 points), `margin = 36` points,
`legend_height = 60`; `scale = min(scale_x, scale_y)`. -/
def export_scale (front left : ℚ) : ℚ :=
  min ((792 - 2 * 36) / front) ((612 - 2 * 36 - 60) / left)

/-! ## Geometry primitives (feet space, top-based Y) -/

/-- Squared Euclidean distance between two points. -/
def sqDist (a b : ℚ × ℚ) : ℚ :=
  (a.1 - b.1) ^ 2 + (a.2 - b.2) ^ 2

/-- Embeds `layout_canvas._nearest_rect_point_ft`: clamp the point into the
rectangle `(L, T, R, B)`, return `(qx, qy, px, py)`. -/
def nearest_rect_point_ft_canvas (rect : ℚ × ℚ × ℚ × ℚ) (px py : ℚ) :
    ℚ × ℚ × ℚ × ℚ :=
  match rect with
  | (L, T, R, B) =>
    let qx := min (max px L) R
    let qy := min (max py T) B
    (qx, qy, px, py)

/-- Embeds `print_export.nearest_rect_point_ft` (the PDF path's copy). -/
def nearest_rect_point_ft_pdf (rect : ℚ × ℚ × ℚ × ℚ) (px py : ℚ) :
    ℚ × ℚ × ℚ × ℚ :=
  match rect with
  | (L, T, R, B) =>
    let qx := min (max px L) R
    let qy := min (max py T) B
    (qx, qy, px, py)

/-- Embeds `layout_canvas._nearest_rect_rect_ft`: representative nearest points
between rectangles `A` and `B`, each `(L, T, R, B)`.  When the
rectangles overlap on both axes the result is recentred to a degenerate
vertical segment at the middle of the x-overlap. -/
def nearest_rect_rect_ft_canvas (A Bx : ℚ × ℚ × ℚ × ℚ) : ℚ × ℚ × ℚ × ℚ :=
  match A, Bx with
  | (LA, TA, RA, BA), (LB, TB, RB, BB) =>
    let xr : ℚ × ℚ × ℚ :=
      if RA < LB then (LB - RA, RA, LB)
      else if RB < LA then (LA - RB, LA, RB)
      else
        let v := if min RA RB ≥ max LA LB then max LA LB else (LA + RA) / 2
        (0, v, v)
    let yr : ℚ × ℚ × ℚ :=
      if BA < TB then (TB - BA, BA, TB)
      else if BB < TA then (TA - BB, TA, BB)
      else
        let v := if min BA BB ≥ max TA TB then max TA TB else (TA + BA) / 2
        (0, v, v)
    let dx := xr.1; let ax := xr.2.1; let bx := xr.2.2
    let dy := yr.1; let ay := yr.2.1; let by_ := yr.2.2
    if dx = 0 ∧ dy = 0 then
      let ay2 := max TA TB
      let ax2 := (max LA LB + min RA RB) / 2
      (ax2, ay2, ax2, ay2)
    else (ax, ay, bx, by_)

/-- Embeds `print_export.nearest_rect_rect_ft` (the PDF path's copy): same
per-axis logic, but the overlap fix-up only resets the y-components and
keeps the x-components of the else branch. -/
def nearest_rect_rect_ft_pdf (A Bx : ℚ × ℚ × ℚ × ℚ) : ℚ × ℚ × ℚ × ℚ :=
  match A, Bx with
  | (LA, TA, RA, BA), (LB, TB, RB, BB) =>
    let xr : ℚ × ℚ :=
      if RA < LB then (RA, LB)
      else if RB < LA then (LA, RB)
      else
        let v := if min RA RB ≥ max LA LB then max LA LB else (LA + RA) / 2
        (v, v)
    let yr : ℚ × ℚ :=
      if BA < TB then (BA, TB)
      else if BB < TA then (TA, BB)
      else
        let v := if min BA BB ≥ max TA TB then max TA TB else (TA + BA) / 2
        (v, v)
    let ax := xr.1; let bx := xr.2
    let ay := yr.1; let by_ := yr.2
    if ax = bx ∧ ay = by_ then
      let ay2 := max TA TB
      (ax, ay2, bx, ay2)
    else (ax, ay, bx, by_)

/-! ## Boundary distances -/

/-- Embeds `layout_canvas._shed_distances_ft`: the interactive path's
shed-to-boundary distances `(left, right, front, back)` in feet,
clamped at zero; `None` when the shed is absent or incomplete. -/
def shed_distances_ft (d : LayoutData) : Option (ℚ × ℚ × ℚ × ℚ) :=
  match d.shed with
  | none => none
  | some s =>
    match s.x, s.y, s.width, s.height with
    | some x, some y, some w, some h =>
      some (max 0 x, max 0 (d.front - (x + w)),
            max 0 y, max 0 (d.left - (y + h)))
    | _, _, _, _ => none

/-- Embeds `print_export.rect_nearest_distances_ft`: the PDF path's
object-to-boundary distances, returned as
`(left_ft, right_ft, back_ft, front_ft)`, with no clamping. -/
def rect_nearest_distances_ft (yard_width_ft yard_height_ft x y w h : ℚ) :
    ℚ × ℚ × ℚ × ℚ :=
  let left_ft := x
  let right_ft := yard_width_ft - (x + w)
  let front_ft := y
  let back_ft := yard_height_ft - (y + h)
  (left_ft, right_ft, back_ft, front_ft)

/-! ## Distance guides (`layout_canvas.redraw_distance_guides`) -/

/-- Embeds `layout_canvas._canvas_bbox_for_rect`: rectangle bounding box in
canvas pixels, using the draw math `x1 = x·ratio + MARGIN`,
`y1 = (left − y − h)·ratio + MARGIN`. -/
def canvas_bbox_for_rect (ratio left : ℚ) :
    Option RectangleObject → Option Box
  | none => none
  | some r =>
    match r.x, r.y, r.width, r.height with
    | some x, some y, some w, some h =>
      let x1 := x * ratio + MARGIN_PX
      let y1 := (left - y - h) * ratio + MARGIN_PX
      let x2 := x1 + w * ratio
      let y2 := y1 + h * ratio
      some ⟨min x1 x2, min y1 y2, max x1 x2, max y1 y2⟩
    | _, _, _, _ => none

/-- Embeds `layout_canvas._canvas_bbox_for_point` with the call sites' radius
`r_px = 6`. -/
def canvas_bbox_for_point (ratio left : ℚ) :
    Option PointObject → Option Box
  | none => none
  | some p =>
    match p.x, p.y with
    | some x, some y =>
      let cx := x * ratio + MARGIN_PX
      let cy := (left - y) * ratio + MARGIN_PX
      some ⟨cx - 6, cy - 6, cx + 6, cy + 6⟩
    | _, _ => none

/-- Center of a canvas bounding box (`center_of_bbox`). -/
def centerOfBbox (b : Box) : ℚ × ℚ :=
  ((b.x0 + b.x1) / 2, (b.y0 + b.y1) / 2)

/-- The guide segments accumulated by
`layout_canvas.redraw_distance_guides`, as endpoint pairs in canvas
pixels (each segment also yields a length label, determined by its
endpoints and the scale).  Ordering follows the source: shed→well,
shed→septic, shed→house, then left, right, back and front property
lines; the right-line guard `layout.right is not None` always holds for
a `LayoutData` value.  An absent shed yields no segments. -/
def redraw_distance_guides_segments (ratio : ℚ) (d : LayoutData) :
    List ((ℚ × ℚ) × (ℚ × ℚ)) :=
  match canvas_bbox_for_rect ratio d.left d.shed with
  | none => []
  | some bbShed =>
    let c := centerOfBbox bbShed
    (match canvas_bbox_for_point ratio d.left d.well with
      | some bb => [(c, centerOfBbox bb)]
      | none => []) ++
    (match canvas_bbox_for_point ratio d.left d.septic with
      | some bb => [(c, centerOfBbox bb)]
      | none => []) ++
    (match canvas_bbox_for_rect ratio d.left d.house with
      | some bb => [(c, centerOfBbox bb)]
      | none => []) ++
    [(c, (MARGIN_PX, c.2))] ++
    [(c, (d.right * ratio + MARGIN_PX, c.2))] ++
    [(c, (c.1, MARGIN_PX))] ++
    [(c, (c.1, d.left * ratio + MARGIN_PX))]

/-! ## Label placement (`layout_canvas._place_label_for_segment`)

The Tk text measurer (`_measure_text_bbox`) and `math.hypot` are the two
non-algebraic inputs of the placement routine; they enter the embedding
as function parameters `measure` and `hyp`.  The only fact the proofs
use about `measure` is that a center-anchored text's raw bounding box
contains its anchor point, which holds for Tk's `canvas.bbox` and for
the source's own fallback box `(tx-20, ty-10, tx+20, ty+10)`. -/

/-- The result dictionary of `_place_label_for_segment`. -/
structure Placement where
  text : String
  pos : ℚ × ℚ
  leader_start : ℚ × ℚ
  leader_end : ℚ × ℚ
  needs_leader : Bool
deriving DecidableEq, Repr

/-- The segment's own tight bounding box used inside `hit`. -/
def segBbox (p1 p2 : ℚ × ℚ) : Box :=
  ⟨min p1.1 p2.1 - 2, min p1.2 p2.2 - 2,
   max p1.1 p2.1 + 2, max p1.2 p2.2 + 2⟩

/-- The local `hit` of `_place_label_for_segment`: a candidate box is
rejected if it intersects any avoidance box or the segment's own
inflated bounding box. -/
def labelHit (avoid : List Box) (p1 p2 : ℚ × ℚ) (candidate : Box) : Bool :=
  avoid.any (fun bb => bboxIntersects candidate bb) ||
    bboxIntersects candidate (segBbox p1 p2)

/-- The eight spiral candidates at a given radius, in source order. -/
def spiralCandidates (mid : ℚ × ℚ) (ux uy vx vy radius : ℚ) :
    List (ℚ × ℚ) :=
  [ (mid.1 + ux * radius, mid.2 + uy * radius),
    (mid.1 - ux * radius, mid.2 - uy * radius),
    (mid.1 + vx * radius, mid.2 + vy * radius),
    (mid.1 - vx * radius, mid.2 - vy * radius),
    (mid.1 + (ux + vx) * radius * (707 / 1000),
     mid.2 + (uy + vy) * radius * (707 / 1000)),
    (mid.1 + (ux - vx) * radius * (707 / 1000),
     mid.2 + (uy - vy) * radius * (707 / 1000)),
    (mid.1 + (-ux + vx) * radius * (707 / 1000),
     mid.2 + (-uy + vy) * radius * (707 / 1000)),
    (mid.1 + (-ux - vx) * radius * (707 / 1000),
     mid.2 + (-uy - vy) * radius * (707 / 1000)) ]

/-- The `while radius <= 60` search loop: at each radius take the first
clear candidate; otherwise step the radius by 6.  Eleven units of fuel
cover the radii 6, 12, ..., 60 the loop can visit. -/
def spiralLoop (clear : ℚ × ℚ → Bool) (cands : ℚ → List (ℚ × ℚ)) :
    Nat → ℚ → Option (ℚ × ℚ)
  | 0, _ => none
  | Nat.succ n, radius =>
    if radius ≤ 60 then
      match (cands radius).find? clear with
      | some c => some c
      | none => spiralLoop clear cands n (radius + 6)
    else none

/-- Embeds `layout_canvas._place_label_for_segment`: try the midpoint; on a
hit, spiral outward; on exhaustion fall back to the midpoint with a
leader stub.  (The source also appends the committed box to the
per-redraw `_placed_label_bboxes` accumulator; that list enters here as
`placedBoxes`.) -/
def place_label_for_segment (hyp : ℚ → ℚ → ℚ)
    (measure : String → ℚ × ℚ → Box) (p1 p2 : ℚ × ℚ) (text : String)
    (avoidBoxes placedBoxes : List Box) : Placement :=
  let mid : ℚ × ℚ := ((p1.1 + p2.1) * (1 / 2), (p1.2 + p2.2) * (1 / 2))
  let dx := p2.1 - p1.1
  let dy := p2.2 - p1.2
  let L0 := hyp dx dy
  let L := if L0 = 0 then 1 else L0
  let ux := -dy / L
  let uy := dx / L
  let vx := dx / L
  let vy := dy / L
  let avoid := avoidBoxes ++ placedBoxes
  let padOf := fun (c : ℚ × ℚ) => inflate (measure text c) 4
  let padded := padOf mid
  if !(labelHit avoid p1 p2 padded) then
    ⟨text, mid, mid, mid, false⟩
  else
    match spiralLoop (fun c => !(labelHit avoid p1 p2 (padOf c)))
        (spiralCandidates mid ux uy vx vy) 11 6 with
    | none => ⟨text, mid, mid, mid, true⟩
    | some b =>
      let leader_len : ℚ := min 18 (max 10 ((qtrunc ((8 / 100) * L) : ℤ) : ℚ))
      let lx := b.1 - mid.1
      let ly := b.2 - mid.2
      let d0 := hyp lx ly
      let d := if d0 = 0 then 1 else d0
      let sx := mid.1 + (lx / d) * min leader_len d
      let sy := mid.2 + (ly / d) * min leader_len d
      ⟨text, b, (sx, sy), b, true⟩

/-- A concrete stand-in for `math.hypot` that is exact on axis-aligned
vectors (the only vectors the concrete instances below feed it). -/
def hypotAxis (x y : ℚ) : ℚ :=
  if x = 0 then |y| else if y = 0 then |x| else 0

/-- The source's own fallback text box
(`raw = self.canvas.bbox(temp) or (tx-20, ty-10, tx+20, ty+10)`),
used as a concrete text measurer in the closed instances below. -/
def measureFallback (_text : String) (c : ℚ × ℚ) : Box :=
  ⟨c.1 - 20, c.2 - 10, c.1 + 20, c.2 + 10⟩

/-! ## Theorems -/

theorem includeRect_none : includeRect none = false := rfl

theorem includePoint_none : includePoint none = false := rfl

/-- C3: applying `rotate_shed` once swaps the shed's width and height
while keeping the center `(x + width/2, y + height/2)` (in feet) fixed,
and applying it four times returns `width`, `height`, `x` and `y` to
their original values (exactly, in the rational model). -/
theorem rotate_shed_swaps_and_preserves_center (left : ℚ) (s : PlacedShed) :
    (rotate_shed left s).width = s.height ∧
    (rotate_shed left s).height = s.width ∧
    (rotate_shed left s).x + (rotate_shed left s).width / 2
      = s.x + s.width / 2 ∧
    (rotate_shed left s).y + (rotate_shed left s).height / 2
      = s.y + s.height / 2 ∧
    rotate_shed left (rotate_shed left (rotate_shed left
      (rotate_shed left s))) = s := by
  obtain ⟨x, y, w, h⟩ := s
  refine ⟨rfl, rfl, by simp only [rotate_shed]; ring,
    by simp only [rotate_shed]; ring, ?_⟩
  simp only [rotate_shed, PlacedShed.mk.injEq]
  norm_num
  ring

/-- C5: serializing a layout, deserializing and re-serializing yields
the first serialization; absent/incomplete objects are omitted on save
and reconstructed as `None` on load. -/
theorem layout_to_dict_roundtrip (d : LayoutData) :
    (LayoutData.from_dict d.to_dict).to_dict = d.to_dict ∧
    (includeRect d.house = false →
      d.to_dict.house = none ∧ (LayoutData.from_dict d.to_dict).house = none) ∧
    (includeRect d.shed = false →
      d.to_dict.shed = none ∧ (LayoutData.from_dict d.to_dict).shed = none) ∧
    (includePoint d.well = false →
      d.to_dict.well = none ∧ (LayoutData.from_dict d.to_dict).well = none) ∧
    (includePoint d.septic = false →
      d.to_dict.septic = none ∧ (LayoutData.from_dict d.to_dict).septic = none) := by
  refine ⟨?_, ?_, ?_, ?_, ?_⟩
  · simp only [LayoutData.to_dict, LayoutData.from_dict]
    by_cases h1 : includeRect d.house <;> by_cases h2 : includeRect d.shed <;>
      by_cases h3 : includePoint d.well <;> by_cases h4 : includePoint d.septic <;>
      simp [h1, h2, h3, h4, includeRect_none, includePoint_none]
  all_goals intro h
  all_goals simp [LayoutData.to_dict, LayoutData.from_dict, h,
    includeRect_none, includePoint_none]

/-- Witness for C5's conditional parts: a layout whose objects are all
absent serializes with every object omitted and loads them back as
`None`. -/
theorem layout_to_dict_roundtrip_witness :
    includeRect (LayoutData.mk 100 100 80 80 none none none none).house = false ∧
    (LayoutData.mk 100 100 80 80 none none none none).to_dict.house = none ∧
    (LayoutData.from_dict
      (LayoutData.mk 100 100 80 80 none none none none).to_dict).house = none :=
  ⟨by decide,
   (layout_to_dict_roundtrip (LayoutData.mk 100 100 80 80 none none none none)).2.1
     (by decide)⟩

/-- C9: zooming in multiplies the feet-to-pixel scale by 1.1 and zooming
out divides it by 1.1, and neither operation changes any field of the
feet-space `LayoutData`; only device quantities are re-derived. -/
theorem zoom_preserves_layout (st : CanvasState) :
    (zoom_in st).feet_to_pixel_ratio = st.feet_to_pixel_ratio * (11 / 10) ∧
    (zoom_out st).feet_to_pixel_ratio = st.feet_to_pixel_ratio / (11 / 10) ∧
    (zoom_in st).layout = st.layout ∧
    (zoom_out st).layout = st.layout :=
  ⟨rfl, rfl, rfl, rfl⟩

/-- Clamping into a nonempty interval lands in the interval and moves
the point no farther than either endpoint. -/
theorem clamp_mem_sq_le (lo hi p : ℚ) (h : lo ≤ hi) :
    lo ≤ min (max p lo) hi ∧ min (max p lo) hi ≤ hi ∧
    (min (max p lo) hi - p) ^ 2 ≤ (lo - p) ^ 2 ∧
    (min (max p lo) hi - p) ^ 2 ≤ (hi - p) ^ 2 := by
  rcases le_total p lo with hp | hp
  · rw [max_eq_right hp, min_eq_left h]
    exact ⟨le_refl _, h, le_refl _, by nlinarith⟩
  · rw [max_eq_left hp]
    rcases le_total p hi with hq | hq
    · rw [min_eq_left hq]
      exact ⟨hp, hq, by nlinarith, by nlinarith⟩
    · rw [min_eq_right hq]
      exact ⟨h, le_refl _, by nlinarith, by nlinarith⟩

/-- C7: for a rectangle `(L, T, R, B)` with `L ≤ R`, `T ≤ B` and any
point `P`, the nearest-point function returns a point lying inside or on
the rectangle whose (squared, hence Euclidean) distance to `P` is at
most the distance from any corner of the rectangle to `P`; the PDF
path's copy computes the same result. -/
theorem nearest_rect_point_sound (L T R B px py : ℚ)
    (hLR : L ≤ R) (hTB : T ≤ B) :
    L ≤ (nearest_rect_point_ft_canvas (L, T, R, B) px py).1 ∧
    (nearest_rect_point_ft_canvas (L, T, R, B) px py).1 ≤ R ∧
    T ≤ (nearest_rect_point_ft_canvas (L, T, R, B) px py).2.1 ∧
    (nearest_rect_point_ft_canvas (L, T, R, B) px py).2.1 ≤ B ∧
    sqDist ((nearest_rect_point_ft_canvas (L, T, R, B) px py).1,
        (nearest_rect_point_ft_canvas (L, T, R, B) px py).2.1) (px, py)
      ≤ sqDist (L, T) (px, py) ∧
    sqDist ((nearest_rect_point_ft_canvas (L, T, R, B) px py).1,
        (nearest_rect_point_ft_canvas (L, T, R, B) px py).2.1) (px, py)
      ≤ sqDist (R, T) (px, py) ∧
    sqDist ((nearest_rect_point_ft_canvas (L, T, R, B) px py).1,
        (nearest_rect_point_ft_canvas (L, T, R, B) px py).2.1) (px, py)
      ≤ sqDist (L, B) (px, py) ∧
    sqDist ((nearest_rect_point_ft_canvas (L, T, R, B) px py).1,
        (nearest_rect_point_ft_canvas (L, T, R, B) px py).2.1) (px, py)
      ≤ sqDist (R, B) (px, py) ∧
    nearest_rect_point_ft_pdf (L, T, R, B) px py
      = nearest_rect_point_ft_canvas (L, T, R, B) px py := by
  obtain ⟨hx1, hx2, hxL, hxR⟩ := clamp_mem_sq_le L R px hLR
  obtain ⟨hy1, hy2, hyT, hyB⟩ := clamp_mem_sq_le T B py hTB
  simp only [nearest_rect_point_ft_canvas, nearest_rect_point_ft_pdf, sqDist]
  exact ⟨hx1, hx2, hy1, hy2, by linarith, by linarith, by linarith, by linarith,
    trivial⟩

/-- Witness for C7 at the rectangle `(0, 0, 10, 10)` and the outside
point `(15, 5)`. -/
theorem nearest_rect_point_sound_witness :
    ((0 : ℚ) ≤ 10 ∧ (0 : ℚ) ≤ 10) ∧
    ((0 : ℚ) ≤ (nearest_rect_point_ft_canvas (0, 0, 10, 10) 15 5).1 ∧
     (nearest_rect_point_ft_canvas (0, 0, 10, 10) 15 5).1 ≤ 10 ∧
     (0 : ℚ) ≤ (nearest_rect_point_ft_canvas (0, 0, 10, 10) 15 5).2.1 ∧
     (nearest_rect_point_ft_canvas (0, 0, 10, 10) 15 5).2.1 ≤ 10 ∧
     sqDist ((nearest_rect_point_ft_canvas (0, 0, 10, 10) 15 5).1,
         (nearest_rect_point_ft_canvas (0, 0, 10, 10) 15 5).2.1) (15, 5)
       ≤ sqDist (0, 0) (15, 5) ∧
     sqDist ((nearest_rect_point_ft_canvas (0, 0, 10, 10) 15 5).1,
         (nearest_rect_point_ft_canvas (0, 0, 10, 10) 15 5).2.1) (15, 5)
       ≤ sqDist (10, 0) (15, 5) ∧
     sqDist ((nearest_rect_point_ft_canvas (0, 0, 10, 10) 15 5).1,
         (nearest_rect_point_ft_canvas (0, 0, 10, 10) 15 5).2.1) (15, 5)
       ≤ sqDist (0, 10) (15, 5) ∧
     sqDist ((nearest_rect_point_ft_canvas (0, 0, 10, 10) 15 5).1,
         (nearest_rect_point_ft_canvas (0, 0, 10, 10) 15 5).2.1) (15, 5)
       ≤ sqDist (10, 10) (15, 5) ∧
     nearest_rect_point_ft_pdf (0, 0, 10, 10) 15 5
       = nearest_rect_point_ft_canvas (0, 0, 10, 10) 15 5) :=
  ⟨⟨by norm_num, by norm_num⟩,
   nearest_rect_point_sound 0 0 10 10 15 5 (by norm_num) (by norm_num)⟩

/-- C1 (amended): for a placed shed the interactive canvas path computes
the four boundary distances as `(max(0,x), max(0,front−(x+width)),
max(0,y), max(0,left−(y+height)))`, all non-negative; the PDF export
path computes the unclamped signed values `(x, front−(x+width),
left−(y+height), y)`, which agree with the clamped ones exactly when the
shed lies inside the property boundary. -/
theorem shed_boundary_distances (d : LayoutData) (s : RectangleObject)
    (x y w h : ℚ) (hs : d.shed = some s) (hx : s.x = some x)
    (hy : s.y = some y) (hw : s.width = some w) (hh : s.height = some h) :
    shed_distances_ft d =
      some (max 0 x, max 0 (d.front - (x + w)),
            max 0 y, max 0 (d.left - (y + h))) ∧
    (∀ t, shed_distances_ft d = some t →
      0 ≤ t.1 ∧ 0 ≤ t.2.1 ∧ 0 ≤ t.2.2.1 ∧ 0 ≤ t.2.2.2) ∧
    (0 ≤ x → x + w ≤ d.front → 0 ≤ y → y + h ≤ d.left →
      rect_nearest_distances_ft d.front d.left x y w h =
        (max 0 x, max 0 (d.front - (x + w)),
         max 0 (d.left - (y + h)), max 0 y)) := by
  have heq : shed_distances_ft d =
      some (max 0 x, max 0 (d.front - (x + w)),
            max 0 y, max 0 (d.left - (y + h))) := by
    simp only [shed_distances_ft, hs, hx, hy, hw, hh]
  refine ⟨heq, ?_, ?_⟩
  · intro t ht
    rw [heq] at ht
    obtain rfl := Option.some.inj ht
    exact ⟨le_max_left _ _, le_max_left _ _, le_max_left _ _, le_max_left _ _⟩
  · intro h1 h2 h3 h4
    have e1 : max (0 : ℚ) x = x := max_eq_right h1
    have e2 : max (0 : ℚ) (d.front - (x + w)) = d.front - (x + w) :=
      max_eq_right (by linarith)
    have e3 : max (0 : ℚ) y = y := max_eq_right h3
    have e4 : max (0 : ℚ) (d.left - (y + h)) = d.left - (y + h) :=
      max_eq_right (by linarith)
    simp only [rect_nearest_distances_ft, e1, e2, e3, e4]

/-- Witness for C1 at a concrete in-bounds layout: property 100 × 80,
shed 20 × 10 at `(10, 5)`. -/
theorem shed_boundary_distances_witness :
    shed_distances_ft
      (LayoutData.mk 100 100 80 80 none
        (some (RectangleObject.mk "Shed" (some 20) (some 10)
          (some 10) (some 5))) none none) =
      some (max 0 10, max 0 ((100 : ℚ) - (10 + 20)),
            max 0 5, max 0 ((80 : ℚ) - (5 + 10))) ∧
    rect_nearest_distances_ft 100 80 10 5 20 10 =
      (max 0 10, max 0 ((100 : ℚ) - (10 + 20)),
       max 0 ((80 : ℚ) - (5 + 10)), max 0 5) := by
  have h := shed_boundary_distances
    (LayoutData.mk 100 100 80 80 none
      (some (RectangleObject.mk "Shed" (some 20) (some 10)
        (some 10) (some 5))) none none)
    (RectangleObject.mk "Shed" (some 20) (some 10) (some 10) (some 5))
    10 5 20 10 rfl rfl rfl rfl rfl
  exact ⟨h.1, h.2.2 (by norm_num) (by norm_num) (by norm_num) (by norm_num)⟩

/-- C1 counterexample: a shed whose left edge lies 5 ft outside the
property (`x = −5`) makes the PDF path report a negative left distance
`−5`, not the clamped `max(0, −5) = 0` the claim asserts for both paths;
the canvas path does clamp it to `0`. -/
theorem shed_boundary_distances_counterexample :
    rect_nearest_distances_ft 100 100 (-5) 10 10 10 = (-5, 95, 80, 10) ∧
    ¬ (0 ≤ (rect_nearest_distances_ft 100 100 (-5) 10 10 10).1) ∧
    (rect_nearest_distances_ft 100 100 (-5) 10 10 10).1 ≠ max 0 (-5 : ℚ) ∧
    shed_distances_ft
      (LayoutData.mk 100 100 100 100 none
        (some (RectangleObject.mk "Shed" (some 10) (some 10)
          (some (-5)) (some 10))) none none) = some (0, 95, 10, 80) := by
  refine ⟨by norm_num [rect_nearest_distances_ft], ?_, ?_, ?_⟩
  · norm_num [rect_nearest_distances_ft]
  · norm_num [rect_nearest_distances_ft]
  · norm_num [shed_distances_ft]

/-- C6 (amended): for `front, left > 0` the export scale fits the page
area (width minus margins, height minus margins and legend):
`scale·front ≤ 720`, `scale·left ≤ 480`.  The interactive base scale
`min(850/front, 650/left)` fits the 850 × 650 target, but the canvas
constructor multiplies it by `ZOOM = 1.2`, so the derived ratio only
satisfies the bounds inflated by `ZOOM` (and the widget is enlarged to
the scaled property instead of keeping 850 × 650). -/
theorem unit_converter_fit (front left : ℚ) (hf : 0 < front) (hl : 0 < left) :
    export_scale front left * front ≤ 720 ∧
    export_scale front left * left ≤ 480 ∧
    feet_to_pixel_ratio_init front left / ZOOM * front ≤ 850 ∧
    feet_to_pixel_ratio_init front left / ZOOM * left ≤ 650 ∧
    feet_to_pixel_ratio_init front left * front ≤ ZOOM * 850 ∧
    feet_to_pixel_ratio_init front left * left ≤ ZOOM * 650 := by
  have hZ : (ZOOM : ℚ) ≠ 0 := by norm_num [ZOOM]
  have hZpos : (0 : ℚ) ≤ ZOOM := by norm_num [ZOOM]
  have hdiv : feet_to_pixel_ratio_init front left / ZOOM
      = min (850 / front) (650 / left) := by
    unfold feet_to_pixel_ratio_init
    exact mul_div_cancel_right₀ _ hZ
  refine ⟨?_, ?_, ?_, ?_, ?_, ?_⟩
  · calc export_scale front left * front
        ≤ ((792 - 2 * 36) / front) * front :=
          mul_le_mul_of_nonneg_right (min_le_left _ _) hf.le
      _ = 720 := by rw [div_mul_cancel₀ _ hf.ne']; norm_num
  · calc export_scale front left * left
        ≤ ((612 - 2 * 36 - 60) / left) * left :=
          mul_le_mul_of_nonneg_right (min_le_right _ _) hl.le
      _ = 480 := by rw [div_mul_cancel₀ _ hl.ne']; norm_num
  · rw [hdiv]
    calc min (850 / front) (650 / left) * front
        ≤ (850 / front) * front :=
          mul_le_mul_of_nonneg_right (min_le_left _ _) hf.le
      _ = 850 := div_mul_cancel₀ _ hf.ne'
  · rw [hdiv]
    calc min (850 / front) (650 / left) * left
        ≤ (650 / left) * left :=
          mul_le_mul_of_nonneg_right (min_le_right _ _) hl.le
      _ = 650 := div_mul_cancel₀ _ hl.ne'
  · calc feet_to_pixel_ratio_init front left * front
        = min (850 / front) (650 / left) * front * ZOOM := by
          unfold feet_to_pixel_ratio_init; ring
      _ ≤ 850 * ZOOM := by
          refine mul_le_mul_of_nonneg_right ?_ hZpos
          calc min (850 / front) (650 / left) * front
              ≤ (850 / front) * front :=
                mul_le_mul_of_nonneg_right (min_le_left _ _) hf.le
            _ = 850 := div_mul_cancel₀ _ hf.ne'
      _ = ZOOM * 850 := by ring
  · calc feet_to_pixel_ratio_init front left * left
        = min (850 / front) (650 / left) * left * ZOOM := by
          unfold feet_to_pixel_ratio_init; ring
      _ ≤ 650 * ZOOM := by
          refine mul_le_mul_of_nonneg_right ?_ hZpos
          calc min (850 / front) (650 / left) * left
              ≤ (650 / left) * left :=
                mul_le_mul_of_nonneg_right (min_le_right _ _) hl.le
            _ = 650 := div_mul_cancel₀ _ hl.ne'
      _ = ZOOM * 650 := by ring

/-- Witness for C6 at a 100 × 100 property. -/
theorem unit_converter_fit_witness :
    ((0 : ℚ) < 100 ∧ (0 : ℚ) < 100) ∧
    (export_scale 100 100 * 100 ≤ 720 ∧
     export_scale 100 100 * 100 ≤ 480 ∧
     feet_to_pixel_ratio_init 100 100 / ZOOM * 100 ≤ 850 ∧
     feet_to_pixel_ratio_init 100 100 / ZOOM * 100 ≤ 650 ∧
     feet_to_pixel_ratio_init 100 100 * 100 ≤ ZOOM * 850 ∧
     feet_to_pixel_ratio_init 100 100 * 100 ≤ ZOOM * 650) :=
  ⟨⟨by norm_num, by norm_num⟩,
   unit_converter_fit 100 100 (by norm_num) (by norm_num)⟩

/-- C6 counterexample: for a 100 × 1 ft property the interactive scale
is `min(8.5, 650) · 1.2 = 10.2`, and `10.2 · max(100, 1) = 1020`
exceeds both canvas extents 850 and 650 — the claimed fit bound fails on
the interactive path. -/
theorem unit_converter_fit_counterexample :
    feet_to_pixel_ratio_init 100 1 * max (100 : ℚ) 1 = 1020 ∧
    ¬ (feet_to_pixel_ratio_init 100 1 * max (100 : ℚ) 1 ≤ 850) ∧
    ¬ (feet_to_pixel_ratio_init 100 1 * max (100 : ℚ) 1 ≤ 650) := by
  norm_num [feet_to_pixel_ratio_init, ZOOM]

/-- C2 (amended): the interactive and PDF copies of the rectangle-to-
rectangle nearest-segment function return the same point pair whenever
the rectangles are separated on at least one axis; they drift when the
rectangles overlap on both axes (the canvas recentres the degenerate
segment at the middle of the x-overlap, the PDF copy does not). -/
theorem nearest_rect_rect_agree (LA TA RA BA LB TB RB BB : ℚ)
    (hsep : RA < LB ∨ RB < LA ∨ BA < TB ∨ BB < TA) :
    nearest_rect_rect_ft_canvas (LA, TA, RA, BA) (LB, TB, RB, BB)
      = nearest_rect_rect_ft_pdf (LA, TA, RA, BA) (LB, TB, RB, BB) := by
  simp only [nearest_rect_rect_ft_canvas, nearest_rect_rect_ft_pdf]
  rcases hsep with h | h | h | h <;>
    split_ifs <;>
    first
      | rfl
      | (exfalso; casesm* _ ∧ _; simp only [] at *; linarith)

/-- Witness for C2 on two x-separated rectangles. -/
theorem nearest_rect_rect_agree_witness :
    ((10 : ℚ) < 20 ∨ (30 : ℚ) < 0 ∨ (10 : ℚ) < 0 ∨ (10 : ℚ) < 0) ∧
    nearest_rect_rect_ft_canvas (0, 0, 10, 10) (20, 0, 30, 10)
      = nearest_rect_rect_ft_pdf (0, 0, 10, 10) (20, 0, 30, 10) :=
  ⟨Or.inl (by norm_num),
   nearest_rect_rect_agree 0 0 10 10 20 0 30 10 (Or.inl (by norm_num))⟩

/-- C2 counterexample: for the identical (hence overlapping) valid
rectangles `(0, 0, 10, 10)` the canvas copy returns `(5, 0, 5, 0)` while
the PDF copy returns `(0, 0, 0, 0)` — the live view and the export do
not compute the same segment. -/
theorem nearest_rect_rect_counterexample :
    ((0 : ℚ) ≤ 10 ∧ (0 : ℚ) ≤ 10) ∧
    nearest_rect_rect_ft_canvas (0, 0, 10, 10) (0, 0, 10, 10) = (5, 0, 5, 0) ∧
    nearest_rect_rect_ft_pdf (0, 0, 10, 10) (0, 0, 10, 10) = (0, 0, 0, 0) ∧
    nearest_rect_rect_ft_canvas (0, 0, 10, 10) (0, 0, 10, 10)
      ≠ nearest_rect_rect_ft_pdf (0, 0, 10, 10) (0, 0, 10, 10) := by
  norm_num [nearest_rect_rect_ft_canvas, nearest_rect_rect_ft_pdf]

/-- C8 (amended): the distance-guide computation and the shed boundary
distances are unaffected by the `back` field — two layouts agreeing on
`front`, `left`, `right` and all objects produce identical guide
segments and distances.  (`right` cannot be dropped from the hypotheses:
the right property-line guide reads it, see the counterexample.) -/
theorem distance_guides_ignore_back (ratio : ℚ) (d1 d2 : LayoutData)
    (hf : d1.front = d2.front) (hl : d1.left = d2.left)
    (hr : d1.right = d2.right) (hh : d1.house = d2.house)
    (hs : d1.shed = d2.shed) (hw : d1.well = d2.well)
    (hsep : d1.septic = d2.septic) :
    redraw_distance_guides_segments ratio d1
      = redraw_distance_guides_segments ratio d2 ∧
    shed_distances_ft d1 = shed_distances_ft d2 := by
  obtain ⟨f1, b1, l1, r1, ho1, s1, w1, se1⟩ := d1
  obtain ⟨f2, b2, l2, r2, ho2, s2, w2, se2⟩ := d2
  dsimp only at hf hl hr hh hs hw hsep
  subst hf; subst hl; subst hr; subst hh; subst hs; subst hw; subst hsep
  exact ⟨rfl, rfl⟩

/-- Witness for C8: two layouts differing only in `back` (0 vs 7) yield
the same guide segments and shed distances. -/
theorem distance_guides_ignore_back_witness :
    redraw_distance_guides_segments 1
      (LayoutData.mk 100 0 80 50 none
        (some (RectangleObject.mk "Shed" (some 10) (some 10)
          (some 10) (some 10))) none none)
      = redraw_distance_guides_segments 1
        (LayoutData.mk 100 7 80 50 none
          (some (RectangleObject.mk "Shed" (some 10) (some 10)
            (some 10) (some 10))) none none) ∧
    shed_distances_ft
      (LayoutData.mk 100 0 80 50 none
        (some (RectangleObject.mk "Shed" (some 10) (some 10)
          (some 10) (some 10))) none none)
      = shed_distances_ft
        (LayoutData.mk 100 7 80 50 none
          (some (RectangleObject.mk "Shed" (some 10) (some 10)
            (some 10) (some 10))) none none) :=
  distance_guides_ignore_back 1 _ _ rfl rfl rfl rfl rfl rfl rfl

/-- C8 counterexample: two layouts agreeing on `front`, `left` and all
objects but differing in `right` (50 vs 60) produce different guide
segments — the right property-line guide position depends on
`layout.right`, so the guide output is not a function of `front`/`left`
and the objects alone. -/
theorem distance_guides_right_counterexample :
    (LayoutData.mk 100 0 80 50 none
        (some (RectangleObject.mk "Shed" (some 10) (some 10)
          (some 10) (some 10))) none none).front
      = (LayoutData.mk 100 0 80 60 none
        (some (RectangleObject.mk "Shed" (some 10) (some 10)
          (some 10) (some 10))) none none).front ∧
    (LayoutData.mk 100 0 80 50 none
        (some (RectangleObject.mk "Shed" (some 10) (some 10)
          (some 10) (some 10))) none none).left
      = (LayoutData.mk 100 0 80 60 none
        (some (RectangleObject.mk "Shed" (some 10) (some 10)
          (some 10) (some 10))) none none).left ∧
    (LayoutData.mk 100 0 80 50 none
        (some (RectangleObject.mk "Shed" (some 10) (some 10)
          (some 10) (some 10))) none none).shed
      = (LayoutData.mk 100 0 80 60 none
        (some (RectangleObject.mk "Shed" (some 10) (some 10)
          (some 10) (some 10))) none none).shed ∧
    redraw_distance_guides_segments 1
      (LayoutData.mk 100 0 80 50 none
        (some (RectangleObject.mk "Shed" (some 10) (some 10)
          (some 10) (some 10))) none none)
      ≠ redraw_distance_guides_segments 1
        (LayoutData.mk 100 0 80 60 none
          (some (RectangleObject.mk "Shed" (some 10) (some 10)
            (some 10) (some 10))) none none) := by
  refine ⟨rfl, rfl, rfl, ?_⟩
  norm_num [redraw_distance_guides_segments, canvas_bbox_for_rect,
    canvas_bbox_for_point, centerOfBbox, MARGIN_PX]

/-- C10 (amended): `update_object_position` raises `ValueError` iff the
name resolution fails, where resolution gives role aliases precedence
with no fallback: it fails exactly when either the name has a canonical
role whose object is absent (even if some present object carries that
exact display name), or the name has no role and no present object has
it as exact display name.  On success exactly the resolved object's
`x`/`y` are set and every other field of the layout (boundaries and the
other three objects) is unchanged; on error the layout is unchanged. -/
theorem update_object_position_spec (d : LayoutData) (n : String) (x y : ℚ) :
    ((∃ e, update_object_position d n x y = Except.error e) ↔
      ((∃ r, role_for n = some r ∧ slotPresent d r = false) ∨
       (role_for n = none ∧
         d.house.any (fun o => o.name = n) = false ∧
         d.shed.any (fun o => o.name = n) = false ∧
         d.well.any (fun o => o.name = n) = false ∧
         d.septic.any (fun o => o.name = n) = false))) ∧
    (∀ s, resolve_obj d n = some s →
      update_object_position d n x y = Except.ok (setPos d s x y)) ∧
    (∀ s, (setPos d s x y).front = d.front ∧ (setPos d s x y).back = d.back ∧
      (setPos d s x y).left = d.left ∧ (setPos d s x y).right = d.right) ∧
    (∀ s, (s ≠ Slot.house → (setPos d s x y).house = d.house) ∧
      (s ≠ Slot.shed → (setPos d s x y).shed = d.shed) ∧
      (s ≠ Slot.well → (setPos d s x y).well = d.well) ∧
      (s ≠ Slot.septic → (setPos d s x y).septic = d.septic)) ∧
    ((setPos d Slot.house x y).house
      = d.house.map fun o => { o with x := some x, y := some y }) ∧
    ((setPos d Slot.shed x y).shed
      = d.shed.map fun o => { o with x := some x, y := some y }) ∧
    ((setPos d Slot.well x y).well
      = d.well.map fun o => { o with x := some x, y := some y }) ∧
    ((setPos d Slot.septic x y).septic
      = d.septic.map fun o => { o with x := some x, y := some y }) := by
  refine ⟨?_, ?_, ?_, ?_, rfl, rfl, rfl, rfl⟩
  · cases hrole : role_for n with
    | some r =>
      by_cases hp : slotPresent d r
      · simp [update_object_position, resolve_obj, hrole, hp]
      · simp [update_object_position, resolve_obj, hrole, hp]
    | none =>
      by_cases h1 : d.house.any (fun o => o.name = n) <;>
        by_cases h2 : d.shed.any (fun o => o.name = n) <;>
        by_cases h3 : d.well.any (fun o => o.name = n) <;>
        by_cases h4 : d.septic.any (fun o => o.name = n) <;>
        simp [update_object_position, resolve_obj, hrole, h1, h2, h3, h4]
  · intro s hs
    simp [update_object_position, hs]
  · intro s
    cases s <;> simp [setPos]
  · intro s
    cases s <;> simp [setPos]

/-- Witness for C10: updating the present shed through its role alias
succeeds and rewrites exactly the shed's position. -/
theorem update_object_position_witness :
    resolve_obj
      (LayoutData.mk 100 100 80 80 none
        (some (RectangleObject.mk "Shed" (some 10) (some 10)
          (some 0) (some 0))) none none) "shed" = some Slot.shed ∧
    update_object_position
      (LayoutData.mk 100 100 80 80 none
        (some (RectangleObject.mk "Shed" (some 10) (some 10)
          (some 0) (some 0))) none none) "shed" 3 4
      = Except.ok (setPos
        (LayoutData.mk 100 100 80 80 none
          (some (RectangleObject.mk "Shed" (some 10) (some 10)
            (some 0) (some 0))) none none) Slot.shed 3 4) :=
  ⟨by decide,
   (update_object_position_spec
     (LayoutData.mk 100 100 80 80 none
       (some (RectangleObject.mk "Shed" (some 10) (some 10)
         (some 0) (some 0))) none none) "shed" 3 4).2.1
     Slot.shed (by decide)⟩

/-- C10 counterexample: in a layout with no house but whose shed's exact
display name is "Big House", updating by that exact display name raises
`ValueError` — `role_for` maps the name to the absent house slot and
never falls back to display-name matching, contradicting the claimed
iff condition. -/
theorem update_object_position_counterexample :
    (LayoutData.mk 100 100 80 80 none
      (some (RectangleObject.mk "Big House" (some 10) (some 10)
        (some 0) (some 0))) none none).shed.any
      (fun o => o.name = "Big House") = true ∧
    update_object_position
      (LayoutData.mk 100 100 80 80 none
        (some (RectangleObject.mk "Big House" (some 10) (some 10)
          (some 0) (some 0))) none none) "Big House" 1 2
      = Except.error "Unknown object name: Big House" := by
  exact ⟨by decide, by rfl⟩

theorem boxContains_iff (b : Box) (c : ℚ × ℚ) :
    boxContains b c = true ↔
      (b.x0 ≤ c.1 ∧ c.1 ≤ b.x1 ∧ b.y0 ≤ c.2 ∧ c.2 ≤ b.y1) := by
  unfold boxContains
  split_ifs with h <;> simp [h]

/-- Two boxes containing a common point intersect. -/
theorem bboxIntersects_of_common_point (a b : Box) (c : ℚ × ℚ)
    (ha : boxContains a c = true) (hb : boxContains b c = true) :
    bboxIntersects a b = true := by
  rw [boxContains_iff] at ha hb
  unfold bboxIntersects
  rw [if_neg]
  push_neg
  exact ⟨by linarith [ha.2.1, hb.1], by linarith [ha.1, hb.2.1],
    by linarith [ha.2.2.2, hb.2.2.1], by linarith [ha.2.2.1, hb.2.2.2]⟩

/-- The segment's own inflated bounding box contains the segment's
midpoint. -/
theorem segBbox_contains_midpoint (p1 p2 : ℚ × ℚ) :
    boxContains (segBbox p1 p2)
      ((p1.1 + p2.1) * (1 / 2), (p1.2 + p2.2) * (1 / 2)) = true := by
  rw [boxContains_iff]
  unfold segBbox
  have h1 : min p1.1 p2.1 ≤ (p1.1 + p2.1) * (1 / 2) := by
    rcases le_total p1.1 p2.1 with h | h
    · rw [min_eq_left h]; linarith
    · rw [min_eq_right h]; linarith
  have h2 : (p1.1 + p2.1) * (1 / 2) ≤ max p1.1 p2.1 := by
    rcases le_total p1.1 p2.1 with h | h
    · rw [max_eq_right h]; linarith
    · rw [max_eq_left h]; linarith
  have h3 : min p1.2 p2.2 ≤ (p1.2 + p2.2) * (1 / 2) := by
    rcases le_total p1.2 p2.2 with h | h
    · rw [min_eq_left h]; linarith
    · rw [min_eq_right h]; linarith
  have h4 : (p1.2 + p2.2) * (1 / 2) ≤ max p1.2 p2.2 := by
    rcases le_total p1.2 p2.2 with h | h
    · rw [max_eq_right h]; linarith
    · rw [max_eq_left h]; linarith
  exact ⟨by linarith, by linarith, by linarith, by linarith⟩

/-- Inflating by a nonnegative pad preserves containment. -/
theorem boxContains_inflate (b : Box) (c : ℚ × ℚ) (pad : ℚ)
    (hpad : 0 ≤ pad) (h : boxContains b c = true) :
    boxContains (inflate b pad) c = true := by
  rw [boxContains_iff] at h ⊢
  unfold inflate
  dsimp only
  exact ⟨by linarith [h.1], by linarith [h.2.1],
    by linarith [h.2.2.1], by linarith [h.2.2.2]⟩

/-- Whatever the spiral loop returns was accepted by the clearance
predicate. -/
theorem spiralLoop_clear (clear : ℚ × ℚ → Bool) (cands : ℚ → List (ℚ × ℚ)) :
    ∀ n radius c, spiralLoop clear cands n radius = some c → clear c = true := by
  intro n
  induction n with
  | zero => intro radius c h; simp [spiralLoop] at h
  | succ m ih =>
    intro radius c h
    rw [spiralLoop] at h
    split_ifs at h
    · cases hfind : (cands radius).find? clear with
      | none => rw [hfind] at h; exact ih _ _ h
      | some c0 =>
        rw [hfind] at h
        cases h
        exact List.find?_some hfind

/-- C4 (amended): the midpoint candidate always intersects the
segment's own inflated bounding box, which is part of the collision
check, so the placement engine never commits at the midpoint without a
leader: every returned placement has `needs_leader = true`, and the
returned position is either a spiral position whose padded box passes
the collision check (no avoidance box, no segment box) or the midpoint
fallback with a leader stub.  The hypothesis on `measure` states that a
center-anchored text bounding box contains its anchor. -/
theorem place_label_for_segment_spec (hyp : ℚ → ℚ → ℚ)
    (measure : String → ℚ × ℚ → Box)
    (hm : ∀ t c, boxContains (measure t c) c = true)
    (p1 p2 : ℚ × ℚ) (text : String) (avoidBoxes placedBoxes : List Box) :
    (place_label_for_segment hyp measure p1 p2 text
      avoidBoxes placedBoxes).needs_leader = true ∧
    ((place_label_for_segment hyp measure p1 p2 text
        avoidBoxes placedBoxes).pos
      = ((p1.1 + p2.1) * (1 / 2), (p1.2 + p2.2) * (1 / 2)) ∨
     labelHit (avoidBoxes ++ placedBoxes) p1 p2
       (inflate (measure text (place_label_for_segment hyp measure p1 p2
         text avoidBoxes placedBoxes).pos) 4) = false) := by
  have hmid : labelHit (avoidBoxes ++ placedBoxes) p1 p2
      (inflate (measure text
        ((p1.1 + p2.1) * (1 / 2), (p1.2 + p2.2) * (1 / 2))) 4) = true := by
    unfold labelHit
    have hseg : bboxIntersects
        (inflate (measure text
          ((p1.1 + p2.1) * (1 / 2), (p1.2 + p2.2) * (1 / 2))) 4)
        (segBbox p1 p2) = true :=
      bboxIntersects_of_common_point _ _ _
        (boxContains_inflate _ _ 4 (by norm_num) (hm _ _))
        (segBbox_contains_midpoint p1 p2)
    rw [hseg]
    exact Bool.or_true _
  simp only [place_label_for_segment, hmid, Bool.not_true, Bool.false_eq_true,
    if_false]
  split
  · exact ⟨rfl, Or.inl rfl⟩
  · next b heq =>
    have hclear := spiralLoop_clear _ _ _ _ _ heq
    simp only [Bool.not_eq_true'] at hclear
    exact ⟨rfl, Or.inr hclear⟩

/-- Witness for C4 at the segment `(0,0)–(10,0)` with no avoidance
boxes, the source's fallback text box and an exact hypot. -/
theorem place_label_for_segment_spec_witness :
    (place_label_for_segment hypotAxis measureFallback (0, 0) (10, 0) "x"
      [] []).needs_leader = true ∧
    ((place_label_for_segment hypotAxis measureFallback (0, 0) (10, 0) "x"
        [] []).pos
      = ((0 + 10) * (1 / 2), (0 + 0) * (1 / 2)) ∨
     labelHit ([] ++ []) (0, 0) (10, 0)
       (inflate (measureFallback "x"
         (place_label_for_segment hypotAxis measureFallback (0, 0) (10, 0)
           "x" [] []).pos) 4) = false) :=
  place_label_for_segment_spec hypotAxis measureFallback
    (fun t c => by
      unfold measureFallback boxContains
      dsimp only
      rw [if_pos]
      exact ⟨by linarith, by linarith, by linarith, by linarith⟩)
    (0, 0) (10, 0) "x" [] []

/-- C4 counterexample: for the horizontal segment `(100,100)–(200,100)`
with an empty avoidance set (so the claim's antecedent — the midpoint
box intersects no object, gutter or label box — holds trivially), the
engine does not commit at the midpoint `(150, 100)` without a leader: it
returns the nudged position `(150, 118)` with `needs_leader = true`,
because the midpoint candidate collides with the segment's own bounding
box. -/
theorem place_label_for_segment_counterexample :
    List.any ([] : List Box)
      (fun bb => bboxIntersects
        (inflate (measureFallback "50.0 ft" (150, 100)) 4) bb) = false ∧
    (place_label_for_segment hypotAxis measureFallback (100, 100) (200, 100)
      "50.0 ft" [] []).needs_leader = true ∧
    (place_label_for_segment hypotAxis measureFallback (100, 100) (200, 100)
      "50.0 ft" [] []).pos = (150, 118) := by
  refine ⟨rfl, ?_⟩
  have : place_label_for_segment hypotAxis measureFallback (100, 100)
      (200, 100) "50.0 ft" [] []
      = ⟨"50.0 ft", (150, 118), (150, 110), (150, 118), true⟩ := by
    norm_num [place_label_for_segment, hypotAxis, measureFallback, labelHit,
      bboxIntersects, segBbox, inflate, spiralLoop, spiralCandidates,
      List.find?, qtrunc]
  rw [this]
  exact ⟨rfl, rfl⟩

end YardLayout
